import Mathlib

/-!
# Verification of the Salon voice-assistant API server

A shallow embedding of `src/api_server.py` (FastAPI backend for the salon
voice assistant).  Pure request handlers become Lean functions; the two
provider SDKs (Vonage, Twilio) and the wall clock are modelled as oracle
parameters, so that a handler is a total function of its request and of the
outcomes those external calls would produce.  Python exceptions are embedded
as an explicit `Except` value threaded to the `try/except` boundary of each
handler.

`voice_agent.py` (the `AgenticSalonAI` helper) is part of the repository but
is not among the given sources; the few functions of it that the handlers
call are modelled from the specification and are marked as such in their
doc comments.
-/

namespace SalonApi

/-! ## Phone-number normalization (`trigger_call`, lines 233-236)

The Python code is
```
phone = phone.replace(" ", "").replace("-", "").replace("(", "").replace(")", "")
if not phone.startswith("+"):
    phone = "+91" + phone.lstrip("0")
```
Each `replace` call replaces a one-character pattern by the empty string,
which removes every occurrence of that character. -/

/-- `s.replace(c, "")` for a single-character pattern `c`: removes every
occurrence of the character. -/
def removeChar (c : Char) (s : String) : String :=
  ⟨s.data.filter (fun a => a != c)⟩

/-- The cleaning chain of `trigger_call` line 234: strips spaces, dashes and
parentheses. -/
def cleanPhone (s : String) : String :=
  removeChar ')' (removeChar '(' (removeChar '-' (removeChar ' ' s)))

/-- Python `s.startswith(p)`: `p` is a prefix of the character sequence. -/
def pyStartsWith (s p : String) : Bool :=
  p.data.isPrefixOf s.data

/-- Python `s.lstrip("0")`: drops every leading `'0'`. -/
def pyLstripZeros (s : String) : String :=
  ⟨s.data.dropWhile (fun a => a == '0')⟩

/-- The full normalization of `trigger_call` lines 234-236. -/
def normalizePhone (s : String) : String :=
  let p := cleanPhone s
  if pyStartsWith p "+" then p else "+91" ++ pyLstripZeros p

/-! ## Exceptions and the handler boundary

A Python exception is either a FastAPI `HTTPException` (status plus detail)
or any other exception, carrying its message.  `strOfExn` embeds `str(e)`:
Starlette's `HTTPException.__str__` renders `f"{status_code}: {detail}"`. -/

/-- A Python exception as seen by the handlers. -/
inductive PyExn where
  | http (status : Nat) (detail : String)
  | other (msg : String)
deriving DecidableEq, Repr

/-- `str(e)` for the exceptions above. -/
def strOfExn : PyExn → String
  | .http s d => toString s ++ ": " ++ d
  | .other m => m

/-- An HTTP error response, the effect of an uncaught `HTTPException`. -/
structure HTTPError where
  status : Nat
  detail : String
deriving DecidableEq, Repr

/-- The `except Exception as e: raise HTTPException(status_code=500,
detail=str(e))` boundary shared by `trigger_call`, `get_bookings`,
`create_booking` and `test_ai`. -/
def catchTo500 {α : Type} (body : Except PyExn α) : α ⊕ HTTPError :=
  match body with
  | .ok a => .inl a
  | .error e => .inr ⟨500, strOfExn e⟩

/-! ## Modelled parts of `voice_agent.py` -/

/-- Modelled from the spec: `voice_agent.py` is not among the given sources.
The spec describes `generate_twiml_response` as wrapping a message into a
provider call-control markup document ("a document format describing what the
provider's telephony platform should do next (speak, gather input, hang
up)"). -/
def generate_twiml_response (msg : String) : String :=
  "<?xml version=\"1.0\" encoding=\"UTF-8\"?><Response><Say>" ++ msg
    ++ "</Say><Gather input=\"speech\"/></Response>"

/-- `pat` occurs as a contiguous substring of `l` (Python `pat in s`). -/
def containsSub : List Char → List Char → Bool
  | l, pat =>
    pat.isPrefixOf l ||
      match l with
      | [] => false
      | _ :: t => containsSub t pat

/-- Python `c.lower()` on one character. -/
def pyLowerChar (c : Char) : Char := c.toLower

/-- Python `s.lower()`. -/
def pyLower (s : String) : String := ⟨s.data.map pyLowerChar⟩

/-- Modelled from the spec: the core of `voice_agent.py` is "a small
rule/keyword dispatcher over a fixed set of salon-service intents (hours,
pricing, booking, services)" returning a canned textual reply; a shallow
keyword-match table over the lowered utterance. -/
def dispatch_reply (speech : String) : String :=
  let s := (pyLower speech).data
  if containsSub s "hour".data then
    "We are open Monday to Sunday, 9 AM to 8 PM."
  else if containsSub s "price".data then
    "Haircuts range from 500 to 1500 rupees; coloring from 2000 to 5000 rupees."
  else if containsSub s "book".data then
    "I can book an appointment for you. What service and time would you like?"
  else if containsSub s "service".data then
    "We offer haircuts, coloring, spa treatments, keratin and bridal styling."
  else
    "I can help with our hours, prices, services or booking an appointment."

/-- Modelled from the spec: `AgenticSalonAI.process_user_input`, the plain-text
entry of the keyword dispatcher. -/
def process_user_input (speech : String) : String :=
  dispatch_reply speech

/-- Modelled from the spec: `AgenticSalonAI.process_voice_call` converts
"caller speech into a scripted response" and returns the markup document
wrapping the dispatched reply. -/
def process_voice_call (speech : String) : String :=
  generate_twiml_response (dispatch_reply speech)

/-! ## `/voice/webhook` (lines 265-290) and `/voice/process` (lines 292-311) -/

/-- The form fields the webhook reads: `form_data.get("CallSid")` and
`form_data.get("SpeechResult", "")`. -/
structure WebhookForm where
  callSid : Option String
  speechResult : Option String
deriving DecidableEq, Repr

/-- `form_data.get("SpeechResult", "")`: the empty string when absent. -/
def getSpeech (f : WebhookForm) : String :=
  f.speechResult.getD ""

/-- A FastAPI `Response(content=..., media_type=...)`. -/
structure XmlResponse where
  content : String
  mediaType : String
deriving DecidableEq, Repr

/-- The greeting of `voice_webhook` line 277. -/
def webhookGreeting : String :=
  "Hello! Welcome to Goodness Glamour Salon. I'm your AI assistant. How can I help you today?"

/-- The greeting of `voice_process` line 299. -/
def processGreeting : String :=
  "Hello! Welcome to Goodness Glamour Salon. How can I help you today?"

/-- The body of `voice_webhook`, parameterized by the speech-processing
function it would call (`salon_ai.process_voice_call`): empty speech yields
the greeting document, otherwise the processed speech, both served as
`application/xml`. -/
def voice_webhook_with (proc : String → String) (f : WebhookForm) : XmlResponse :=
  let speech := getSpeech f
  if speech = "" then
    ⟨generate_twiml_response webhookGreeting, "application/xml"⟩
  else
    ⟨proc speech, "application/xml"⟩

/-- The `voice_webhook` handler body with the real processing function. -/
def voice_webhook (f : WebhookForm) : XmlResponse :=
  voice_webhook_with process_voice_call f

/-- The apology response of `voice_webhook` lines 287-290. -/
def apologyLater : XmlResponse :=
  ⟨generate_twiml_response "I'm sorry, I'm having trouble. Please try again later.",
    "application/xml"⟩

/-- The apology response of `voice_process` lines 308-311. -/
def apologyAgain : XmlResponse :=
  ⟨generate_twiml_response "I'm sorry, I'm having trouble. Please try again.",
    "application/xml"⟩

/-- The `try/except` boundary of `voice_webhook`: an exception anywhere in the
body is converted to the apology document. -/
def voice_webhook_run (body : Except PyExn XmlResponse) : XmlResponse :=
  match body with
  | .ok r => r
  | .error _ => apologyLater

/-- The body of `voice_process` on its `SpeechResult` query parameter. -/
def voice_process_body (speechParam : Option String) : XmlResponse :=
  let speech := speechParam.getD ""
  if speech = "" then
    ⟨generate_twiml_response processGreeting, "application/xml"⟩
  else
    ⟨process_voice_call speech, "application/xml"⟩

/-- The `try/except` boundary of `voice_process`. -/
def voice_process_run (body : Except PyExn XmlResponse) : XmlResponse :=
  match body with
  | .ok r => r
  | .error _ => apologyAgain

/-! ## `/trigger-call` (lines 225-263)

The handler reads `request.get("phone")`, cleans and normalizes the number,
prefers Vonage when a client, a from-number and a hosted answer URL are all
configured, and otherwise (or when the Vonage call throws) falls back to
`salon_ai.trigger_voice_call` with `WEBHOOK_URL + "/voice/webhook"`.  The two
provider SDKs are oracles in the environment; the embedding also returns the
list of provider call-creation invocations the run performed. -/

/-- One provider call-creation invocation: the destination number and the
callback URL handed to the provider (`answer_url` for Vonage, the webhook URL
for Twilio). -/
inductive ProviderCall where
  | vonage (toNumber fromNumber answerUrl : String)
  | twilio (phone webhookUrl : String)
deriving DecidableEq, Repr

/-- The destination number of a provider invocation. -/
def ProviderCall.number : ProviderCall → String
  | .vonage n _ _ => n
  | .twilio n _ => n

/-- The environment of `trigger_call`: module-level configuration plus the two
provider SDK calls as oracles (each may return normally or raise). -/
structure TriggerEnv where
  /-- `get_vonage_client()` returned a client (library importable and keys set). -/
  clientOk : Bool
  /-- `VONAGE_PHONE_NUMBER` (empty when unset, which is falsy in Python). -/
  vonagePhone : String
  /-- `VONAGE_ANSWER_URL` (empty when unset). -/
  answerUrl : String
  /-- `WEBHOOK_URL`. -/
  webhookBase : String
  /-- `vonage_client.voice.create_call(...)` on (to, from, answer_url): raises,
  or returns a response whose `uuid` is extracted when it is a dict. -/
  vonageApi : String → String → String → Except String (Option String)
  /-- `salon_ai.trigger_voice_call(phone, webhook_url)`: raises or returns a
  success flag. -/
  twilioApi : String → String → Except String Bool

/-- The condition of line 240: `if vonage_client and VONAGE_PHONE_NUMBER and
VONAGE_ANSWER_URL` (non-empty strings are truthy). -/
def vonageConfigured (env : TriggerEnv) : Bool :=
  env.clientOk && (env.vonagePhone != "") && (env.answerUrl != "")

/-- The JSON object `trigger_call` returns on the non-raising paths. -/
structure TriggerDict where
  success : Bool
  provider : Option String
  message : String
  callId : Option String
deriving DecidableEq, Repr

/-- The failure message of line 259. -/
def configureMsg : String :=
  "Failed to initiate call. Configure Vonage (VONAGE_API_KEY/SECRET/PHONE/ANSWER_URL) or Twilio (SID/TOKEN/PHONE/WEBHOOK_URL)."

/-- Lines 253-259: the Twilio fallback. `trigger_voice_call` is invoked with
the normalized phone and `WEBHOOK_URL + "/voice/webhook"`; an exception from
it propagates to the handler's `except` clause. -/
def twilio_attempt (env : TriggerEnv) (phone : String) : Except PyExn TriggerDict :=
  match env.twilioApi phone (env.webhookBase ++ "/voice/webhook") with
  | .ok true => .ok ⟨true, some "twilio", "AI call initiated to " ++ phone, none⟩
  | .ok false => .ok ⟨false, none, configureMsg, none⟩
  | .error m => .error (.other m)

/-- The body of `trigger_call` (the inside of its `try`), lines 229-259,
paired with the provider invocations it performs.  A missing or empty
`phone` raises `HTTPException(400, "Phone number is required")`. -/
def trigger_call_body (env : TriggerEnv) (phoneField : Option String) :
    Except PyExn TriggerDict × List ProviderCall :=
  match phoneField with
  | none => (.error (.http 400 "Phone number is required"), [])
  | some rawPhone =>
    if rawPhone = "" then
      (.error (.http 400 "Phone number is required"), [])
    else
      let phone := normalizePhone rawPhone
      if vonageConfigured env then
        let ev := ProviderCall.vonage phone env.vonagePhone env.answerUrl
        match env.vonageApi phone env.vonagePhone env.answerUrl with
        | .ok callId =>
          (.ok ⟨true, some "vonage", "AI call initiated to " ++ phone, callId⟩, [ev])
        | .error _ =>
          (twilio_attempt env phone,
            [ev, .twilio phone (env.webhookBase ++ "/voice/webhook")])
      else
        (twilio_attempt env phone,
          [.twilio phone (env.webhookBase ++ "/voice/webhook")])

/-- The full `trigger_call` handler: the body behind the `except Exception`
boundary of lines 261-263, which re-raises any exception as
`HTTPException(500, str(e))`. -/
def trigger_call (env : TriggerEnv) (phoneField : Option String) :
    (TriggerDict ⊕ HTTPError) × List ProviderCall :=
  let r := trigger_call_body env phoneField
  (catchTo500 r.1, r.2)

/-! ## `/bookings`, `/health`, `/test-ai` (lines 313-361) -/

/-- The static payload of `GET /bookings` lines 319-322. -/
structure BookingsPayload where
  bookings : List String
  message : String
deriving DecidableEq, Repr

/-- The body of `get_bookings`. -/
def get_bookings_body : BookingsPayload :=
  ⟨[], "Bookings endpoint - implement database query here"⟩

/-- The `try/except` boundary of `get_bookings` (lines 323-325). -/
def get_bookings_run (body : Except PyExn BookingsPayload) : BookingsPayload ⊕ HTTPError :=
  catchTo500 body

/-- The payload of `POST /bookings` lines 333. -/
structure BookingReply where
  success : Bool
  message : String
deriving DecidableEq, Repr

/-- The body of `create_booking`: the booking data rendered into a prompt for
the dispatcher. -/
def create_booking_body (bookingData : String) : BookingReply :=
  ⟨true, process_user_input ("Book appointment: " ++ bookingData)⟩

/-- The `try/except` boundary of `create_booking` (lines 334-336). -/
def create_booking_run (body : Except PyExn BookingReply) : BookingReply ⊕ HTTPError :=
  catchTo500 body

/-- The payload of `GET /health` lines 341-346. -/
structure HealthPayload where
  status : String
  timestamp : String
  twilioAvailable : Bool
  aiSystem : String
deriving DecidableEq, Repr

/-- `health_check`, with the wall clock (`datetime.now().isoformat()`) and the
import-time `TWILIO_AVAILABLE` flag as parameters. -/
def health_check (twilioAvailable : Bool) (now : String) : HealthPayload :=
  ⟨"healthy", now, twilioAvailable, "operational"⟩

/-- The payload of `GET /test-ai` lines 354-358. -/
structure TestAiPayload where
  query : String
  response : String
  timestamp : String
deriving DecidableEq, Repr

/-- The body of `test_ai`, with the wall clock as a parameter. -/
def test_ai_body (now : String) : TestAiPayload :=
  ⟨"What services do you offer?",
    process_user_input "What services do you offer?", now⟩

/-- The `try/except` boundary of `test_ai` (lines 359-361). -/
def test_ai_run (body : Except PyExn TestAiPayload) : TestAiPayload ⊕ HTTPError :=
  catchTo500 body

/-- A `TriggerEnv` whose Vonage side is configured but whose `create_call`
raises, while Twilio succeeds. -/
def fallbackEnv : TriggerEnv :=
  ⟨true, "+917000000001", "https://studio.example/answer", "https://salon.example",
    fun _ _ _ => .error "Vonage API error", fun _ _ => .ok true⟩

/-- A `TriggerEnv` with no Vonage client, so that the handler goes straight to
the Twilio fallback. -/
def twilioOnlyEnv : TriggerEnv :=
  ⟨false, "", "", "https://salon.example",
    fun _ _ _ => .ok none, fun _ _ => .ok true⟩

/-! ## Theorems -/

/-- A generated markup document is never the empty string: it always carries
the fixed XML preamble. -/
theorem generate_twiml_response_ne_empty (msg : String) :
    generate_twiml_response msg ≠ "" := by
  intro hE
  have h2 : (generate_twiml_response msg).data = [] := by rw [hE]
  simp [generate_twiml_response, String.data_append] at h2

/-- C1: a phone number whose cleaned form (spaces, dashes and parentheses
removed) does not begin with `+` acquires the default `+91` prefix, prepended
after the leading zeros are stripped; a cleaned number already beginning with
`+` is used as it is, with no prefix added. -/
theorem default_country_code_rule (s : String) :
    (pyStartsWith (cleanPhone s) "+" = false →
      normalizePhone s = "+91" ++ pyLstripZeros (cleanPhone s)) ∧
    (pyStartsWith (cleanPhone s) "+" = true →
      normalizePhone s = cleanPhone s) := by
  constructor <;> intro h <;> simp [normalizePhone, h]

theorem default_country_code_rule_witness :
    (pyStartsWith (cleanPhone "098 765-4321") "+" = false ∧
      normalizePhone "098 765-4321" = "+91" ++ pyLstripZeros (cleanPhone "098 765-4321")) ∧
    (pyStartsWith (cleanPhone "+1 (415) 555-0100") "+" = true ∧
      normalizePhone "+1 (415) 555-0100" = cleanPhone "+1 (415) 555-0100") :=
  ⟨⟨rfl, (default_country_code_rule "098 765-4321").1 rfl⟩,
   ⟨rfl, (default_country_code_rule "+1 (415) 555-0100").2 rfl⟩⟩

/-- C2: when Vonage is configured (client, from-number and answer URL all
present) and its `create_call` raises, `trigger_call` does not propagate the
exception: it performs the Twilio attempt on the same normalized number and
returns that attempt's outcome, having invoked first Vonage and then
Twilio. -/
theorem vonage_failure_falls_back_to_twilio (env : TriggerEnv) (rawPhone msg : String)
    (hp : rawPhone ≠ "")
    (hcfg : vonageConfigured env = true)
    (herr : env.vonageApi (normalizePhone rawPhone) env.vonagePhone env.answerUrl
      = .error msg) :
    trigger_call env (some rawPhone) =
      (catchTo500 (twilio_attempt env (normalizePhone rawPhone)),
        [.vonage (normalizePhone rawPhone) env.vonagePhone env.answerUrl,
         .twilio (normalizePhone rawPhone) (env.webhookBase ++ "/voice/webhook")]) := by
  simp [trigger_call, trigger_call_body, hp, hcfg, herr]

theorem vonage_failure_falls_back_to_twilio_witness :
    ("9876543210" : String) ≠ "" ∧
    vonageConfigured fallbackEnv = true ∧
    fallbackEnv.vonageApi (normalizePhone "9876543210") fallbackEnv.vonagePhone
      fallbackEnv.answerUrl = .error "Vonage API error" ∧
    trigger_call fallbackEnv (some "9876543210") =
      (catchTo500 (twilio_attempt fallbackEnv (normalizePhone "9876543210")),
        [.vonage (normalizePhone "9876543210") fallbackEnv.vonagePhone fallbackEnv.answerUrl,
         .twilio (normalizePhone "9876543210") (fallbackEnv.webhookBase ++ "/voice/webhook")]) :=
  ⟨by decide, rfl, rfl,
    vonage_failure_falls_back_to_twilio fallbackEnv "9876543210" "Vonage API error"
      (by decide) rfl rfl⟩

/-- C3: a webhook request with no speech result (field absent or empty) is
answered by the markup document carrying the fixed greeting, whatever
speech-processing function the handler was given — so the processing path is
never consulted — and that document contains the greeting text as a
substring. -/
theorem webhook_no_speech_greets (proc : String → String) (f : WebhookForm)
    (h : getSpeech f = "") :
    voice_webhook_with proc f =
      ⟨generate_twiml_response webhookGreeting, "application/xml"⟩ ∧
    containsSub (voice_webhook_with proc f).content.data webhookGreeting.data = true := by
  have h1 : voice_webhook_with proc f =
      ⟨generate_twiml_response webhookGreeting, "application/xml"⟩ := by
    simp [voice_webhook_with, h]
  refine ⟨h1, ?_⟩
  rw [h1]
  decide

theorem webhook_no_speech_greets_witness :
    getSpeech ⟨some "CA123", none⟩ = "" ∧
    (voice_webhook_with (fun _ => "IGNORED") ⟨some "CA123", none⟩ =
        ⟨generate_twiml_response webhookGreeting, "application/xml"⟩ ∧
      containsSub (voice_webhook_with (fun _ => "IGNORED")
          ⟨some "CA123", none⟩).content.data webhookGreeting.data = true) :=
  ⟨rfl, webhook_no_speech_greets (fun _ => "IGNORED") ⟨some "CA123", none⟩ rfl⟩

/-- C4: a webhook request with a non-empty speech result is answered by the
processed-speech markup document, which is never empty, served with media
type `application/xml`. -/
theorem webhook_speech_nonempty_xml (f : WebhookForm) (h : getSpeech f ≠ "") :
    (voice_webhook f).content = process_voice_call (getSpeech f) ∧
    (voice_webhook f).content ≠ "" ∧
    (voice_webhook f).mediaType = "application/xml" := by
  have h1 : voice_webhook f = ⟨process_voice_call (getSpeech f), "application/xml"⟩ := by
    simp [voice_webhook, voice_webhook_with, h]
  rw [h1]
  exact ⟨rfl, generate_twiml_response_ne_empty _, rfl⟩

theorem webhook_speech_nonempty_xml_witness :
    getSpeech ⟨some "CA1", some "what are your hours"⟩ ≠ "" ∧
    (voice_webhook ⟨some "CA1", some "what are your hours"⟩).content ≠ "" :=
  ⟨by decide,
    (webhook_speech_nonempty_xml ⟨some "CA1", some "what are your hours"⟩ (by decide)).2.1⟩

/-- C5: every handler converts an exception of its body at its `try/except`
boundary: the two voice endpoints answer with their generic apology markup
documents, and `/trigger-call`, both `/bookings` handlers and `/test-ai`
answer with an HTTP 500 error carrying `str(e)`; no exception leaves a
handler unconverted. -/
theorem handler_boundaries_convert_failures (e : PyExn) :
    voice_webhook_run (.error e) = apologyLater ∧
    voice_process_run (.error e) = apologyAgain ∧
    (catchTo500 (Except.error e) : TriggerDict ⊕ HTTPError) = .inr ⟨500, strOfExn e⟩ ∧
    get_bookings_run (.error e) = .inr ⟨500, strOfExn e⟩ ∧
    create_booking_run (.error e) = .inr ⟨500, strOfExn e⟩ ∧
    test_ai_run (.error e) = .inr ⟨500, strOfExn e⟩ :=
  ⟨rfl, rfl, rfl, rfl, rfl, rfl⟩

/-- C6: the webhook is a stateless responder keyed on the literal speech
text: two requests carrying the same `SpeechResult` receive equal response
documents, whatever their `CallSid` or other fields. -/
theorem webhook_stateless_in_speech (f g : WebhookForm)
    (h : getSpeech f = getSpeech g) :
    voice_webhook f = voice_webhook g := by
  simp [voice_webhook, voice_webhook_with, h]

theorem webhook_stateless_in_speech_witness :
    getSpeech ⟨some "CA-AAA", some "price list"⟩ =
      getSpeech ⟨some "CA-BBB", some "price list"⟩ ∧
    voice_webhook ⟨some "CA-AAA", some "price list"⟩ =
      voice_webhook ⟨some "CA-BBB", some "price list"⟩ :=
  ⟨rfl, webhook_stateless_in_speech ⟨some "CA-AAA", some "price list"⟩
    ⟨some "CA-BBB", some "price list"⟩ rfl⟩

/-- C7: a `/trigger-call` request with a (non-empty) phone number always
performs at least one provider call-creation invocation, and every
invocation it performs carries the normalized number together with the
provider's callback URL: the hosted answer URL for Vonage, or
`WEBHOOK_URL ++ "/voice/webhook"` for Twilio. -/
theorem trigger_call_invokes_provider_with_callback (env : TriggerEnv)
    (rawPhone : String) (hp : rawPhone ≠ "") :
    (trigger_call env (some rawPhone)).2 ≠ [] ∧
    ∀ c ∈ (trigger_call env (some rawPhone)).2,
      c = ProviderCall.vonage (normalizePhone rawPhone) env.vonagePhone env.answerUrl ∨
      c = ProviderCall.twilio (normalizePhone rawPhone)
            (env.webhookBase ++ "/voice/webhook") := by
  cases hcfg : vonageConfigured env with
  | true =>
    cases hres : env.vonageApi (normalizePhone rawPhone) env.vonagePhone env.answerUrl with
    | ok u => simp [trigger_call, trigger_call_body, hp, hcfg, hres]
    | error m => simp [trigger_call, trigger_call_body, hp, hcfg, hres]
  | false => simp [trigger_call, trigger_call_body, hp, hcfg]

theorem trigger_call_invokes_provider_with_callback_witness :
    ("0 98-76" : String) ≠ "" ∧
    (trigger_call twilioOnlyEnv (some "0 98-76")).2 ≠ [] :=
  ⟨by decide,
    (trigger_call_invokes_provider_with_callback twilioOnlyEnv "0 98-76" (by decide)).1⟩

/-- C8 counterexample: the health and test payloads are not static across
invocations — two calls with the same `TWILIO_AVAILABLE` flag but different
clock readings return different payloads, because both embed
`datetime.now().isoformat()`. -/
theorem health_test_not_static_counterexample :
    health_check true "2024-01-01T10:00:00" ≠ health_check true "2024-01-01T10:00:01" ∧
    test_ai_body "2024-01-01T10:00:00" ≠ test_ai_body "2024-01-01T10:00:01" := by
  constructor <;> decide

/-- C8 (amended): the health and test payloads are static except for the
timestamp field: across any two invocations (with the process-wide
`TWILIO_AVAILABLE` flag fixed) the status, availability, AI-system, query and
response fields coincide, the status being the constant `"healthy"` and the
query the constant echo text. -/
theorem health_test_static_except_timestamp (b : Bool) (t1 t2 : String) :
    (health_check b t1).status = (health_check b t2).status ∧
    (health_check b t1).twilioAvailable = (health_check b t2).twilioAvailable ∧
    (health_check b t1).aiSystem = (health_check b t2).aiSystem ∧
    (test_ai_body t1).query = (test_ai_body t2).query ∧
    (test_ai_body t1).response = (test_ai_body t2).response ∧
    (health_check b t1).status = "healthy" ∧
    (test_ai_body t1).query = "What services do you offer?" :=
  ⟨rfl, rfl, rfl, rfl, rfl, rfl, rfl⟩

/-- C9: the `+91` default is prepended to every cleaned number that does not
already begin with `+`, even one that already begins with the digits `91`:
the input `"919876543210"` is sent as `"+91919876543210"`, and the
normalized number always begins with `+`. -/
theorem plus91_prepended_even_when_91_leading :
    normalizePhone "919876543210" = "+91919876543210" ∧
    ∀ s : String, pyStartsWith (normalizePhone s) "+" = true := by
  refine ⟨rfl, ?_⟩
  intro s
  cases h : pyStartsWith (cleanPhone s) "+" with
  | true => simp [normalizePhone, h]
  | false =>
    have h2 : normalizePhone s = "+91" ++ pyLstripZeros (cleanPhone s) := by
      simp [normalizePhone, h]
    rw [h2]
    simp only [pyStartsWith, String.data_append]
    simp [List.isPrefixOf]

/-- C10: a `/trigger-call` request with no `phone` field answers with HTTP
status 500, not 400: the body raises `HTTPException(400, "Phone number is
required")` inside the `try`, the generic `except Exception` clause catches
it, and the handler re-raises it as status 500 with `str(e)`, which carries
the original detail text. -/
theorem missing_phone_field_yields_500 (env : TriggerEnv) :
    (trigger_call_body env none).1 = .error (.http 400 "Phone number is required") ∧
    trigger_call env none =
      (.inr ⟨500, strOfExn (.http 400 "Phone number is required")⟩, []) ∧
    strOfExn (.http 400 "Phone number is required") = "400: Phone number is required" :=
  ⟨rfl, rfl, rfl⟩

end SalonApi
